import Mathlib

/-!
Verification of the Augment-Free maintenance/sanitization engine.

Shallow embedding of the core modules:
* `augment_tools_core/database_manager.py` (state-store sanitization),
* `augment_tools_core/telemetry_manager.py` (identifier regeneration),
* `augment_tools_core/file_cleaner.py` and `common_utils.py` (file deletion),
* `AugmentCode-Free-Source-Complete/augment_tools_core/patch_manager.py`
  (idempotent code patching),
* `AugmentCode-Free-Source-Complete/augment_tools_core/process_manager.py`
  (process termination).

File contents are modelled as `List Char`; filesystem and OS effects
(backup copies succeeding, exceptions raised by sqlite, unlink outcomes,
process enumeration snapshots) are passed in explicitly as parameters,
so every Python function becomes a pure Lean function from its inputs and
its environment to its result and the final file state.
-/

namespace AugmentFree

/-! ## String helpers

`isPrefixL sub l` models Python's `l.startswith(sub)` on character lists and
`containsSub sub hay` models Python's `sub in hay` (substring containment),
which is what `PatchManager._is_already_patched` uses via `sig in content`.
-/

def isPrefixL : List Char → List Char → Bool
  | [], _ => true
  | _ :: _, [] => false
  | a :: as, b :: bs => a == b && isPrefixL as bs

def containsSub : List Char → List Char → Bool
  | sub, [] => isPrefixL sub []
  | sub, c :: cs => isPrefixL sub (c :: cs) || containsSub sub cs

theorem isPrefixL_append {s t : List Char} (ys : List Char)
    (h : isPrefixL s t = true) : isPrefixL s (t ++ ys) = true := by
  induction s generalizing t with
  | nil => simp [isPrefixL]
  | cons a as ih =>
    cases t with
    | nil => simp [isPrefixL] at h
    | cons b bs =>
      simp only [isPrefixL, Bool.and_eq_true] at h
      simp only [List.cons_append, isPrefixL, Bool.and_eq_true]
      exact ⟨h.1, ih h.2⟩

theorem containsSub_nil_sub (hay : List Char) : containsSub [] hay = true := by
  cases hay <;> simp [containsSub, isPrefixL]

theorem containsSub_append_left {s t : List Char} (xs : List Char)
    (h : containsSub s t = true) : containsSub s (xs ++ t) = true := by
  induction xs with
  | nil => simpa using h
  | cons x xs ih =>
    simp only [List.cons_append, containsSub, Bool.or_eq_true]
    exact Or.inr ih

theorem containsSub_append_right {s t : List Char} (ys : List Char)
    (h : containsSub s t = true) : containsSub s (t ++ ys) = true := by
  induction t with
  | nil =>
    have hs : s = [] := by
      cases s with
      | nil => rfl
      | cons a as => simp [containsSub, isPrefixL] at h
    subst hs
    exact containsSub_nil_sub ys
  | cons c cs ih =>
    simp only [containsSub, Bool.or_eq_true] at h
    simp only [List.cons_append, containsSub, Bool.or_eq_true]
    cases h with
    | inl hpre => exact Or.inl (isPrefixL_append ys hpre)
    | inr hsub => exact Or.inr (ih hsub)

/-! ## Database manager (`augment_tools_core/database_manager.py`)

The state store (`state.vscdb`, table `ItemTable(key, value)`) is modelled as
an association list.  The SQL filter `key LIKE '%keyword%'` is a
case-insensitive substring match on the key (SQLite's `LIKE` folds ASCII
letters only, matching Lean's ASCII-only `Char.toLower`); the keywords used
by the repository ("augment") contain no `LIKE` wildcards. -/

abbrev Store := List (String × Nat)

/-- `key LIKE '%keyword%'`: case-insensitive substring match of the keyword
in the key. -/
def likeMatch (keyword key : String) : Bool :=
  containsSub (keyword.toList.map Char.toLower) (key.toList.map Char.toLower)

/-- Number of rows matched by `SELECT COUNT(*) FROM ItemTable WHERE key LIKE ?`. -/
def countMatching (keyword : String) (s : Store) : Nat :=
  (s.filter (fun r => likeMatch keyword r.1)).length

/-- Effect of `DELETE FROM ItemTable WHERE key LIKE ?`. -/
def removeMatching (keyword : String) (s : Store) : Store :=
  s.filter (fun r => !(likeMatch keyword r.1))

/-- On-disk state around one database run: content of `state.vscdb` (`none`
when the file is missing) and content of the `state.vscdb.backup` file. -/
structure DbFs where
  db : Option Store
  backup : Option Store
deriving DecidableEq, Repr

/-- Exception environment for one database run.  `sqliteErr mid` means a
`sqlite3.Error` escapes the connect/query/delete/commit block with the
database engine having left content `mid` on disk; `otherErr mid` is any
other exception there.  `noFault` is a fault-free run. -/
inductive DbFault
  | noFault
  | sqliteErr (mid : Store)
  | otherErr (mid : Store)
deriving DecidableEq, Repr

/-- Result dict of `clean_vscode_database_enhanced`. -/
structure EnhancedResult where
  success : Bool
  entries_removed : Nat
  backup_created : Bool
  error_message : Option String
deriving DecidableEq, Repr

/-- Outcome of an enhanced run: the result dict, the final on-disk state, and
whether a restore-from-backup copy was performed on the failure path (the
Python code has no such copy in `clean_vscode_database_enhanced`). -/
structure EnhancedRun where
  result : EnhancedResult
  fs : DbFs
  restored : Bool
deriving DecidableEq, Repr

/-- `clean_vscode_database_enhanced(db_path, keyword)`
(database_manager.py lines 304-370).  `backupOk` is whether the
`shutil.copy2` inside `create_backup` succeeds.  Note the source does not
return early when `create_backup` fails: it records `backup_created` and
proceeds to delete; and its `except` branches only set `error_message`,
they never copy the backup back. -/
def clean_vscode_database_enhanced (fs : DbFs) (backupOk : Bool)
    (fault : DbFault) (keyword : String) : EnhancedRun :=
  match fs.db with
  | none => ⟨⟨false, 0, false, some "database file not found"⟩, fs, false⟩
  | some store =>
    let fs1 : DbFs := if backupOk then { fs with backup := some store } else fs
    match fault with
    | DbFault.noFault =>
      if countMatching keyword store = 0 then
        ⟨⟨true, 0, backupOk, none⟩, fs1, false⟩
      else
        ⟨⟨true, countMatching keyword store, backupOk, none⟩,
          { fs1 with db := some (removeMatching keyword store) }, false⟩
    | DbFault.sqliteErr mid =>
      ⟨⟨false, 0, backupOk, some "sqlite error"⟩, { fs1 with db := some mid }, false⟩
    | DbFault.otherErr mid =>
      ⟨⟨false, 0, backupOk, some "unexpected error"⟩, { fs1 with db := some mid }, false⟩

/-- Outcome of a legacy `clean_vscode_database` run. -/
structure LegacyRun where
  ok : Bool
  fs : DbFs
  restored : Bool
deriving DecidableEq, Repr

/-- `clean_vscode_database(db_path, keyword)` (database_manager.py lines
46-162).  Unlike the enhanced variant it aborts when `create_backup`
fails, and its `except sqlite3.Error` handler copies the backup over the
database (`restoreOk` is whether that copy succeeds); the generic
`except Exception` handler returns `False` without restoring. -/
def clean_vscode_database (fs : DbFs) (backupOk restoreOk : Bool)
    (fault : DbFault) (keyword : String) : LegacyRun :=
  match fs.db with
  | none => ⟨false, fs, false⟩
  | some store =>
    if backupOk then
      let fs1 : DbFs := { fs with backup := some store }
      match fault with
      | DbFault.noFault =>
        if countMatching keyword store = 0 then ⟨true, fs1, false⟩
        else ⟨true, { fs1 with db := some (removeMatching keyword store) }, false⟩
      | DbFault.sqliteErr mid =>
        if restoreOk then ⟨false, { fs1 with db := fs1.backup }, true⟩
        else ⟨false, { fs1 with db := some mid }, false⟩
      | DbFault.otherErr mid =>
        ⟨false, { fs1 with db := some mid }, false⟩
    else ⟨false, fs, false⟩

/-! ## Telemetry manager (`augment_tools_core/telemetry_manager.py`)

`storage.json` is modelled by the fields the code touches: an optional
root-level `machineId` and an optional nested `telemetry` object with its
own optional `machineId` and `devDeviceId` (the `isinstance(..., dict)`
guard corresponds to the `telemetry` field being present). -/

structure TelemetryObj where
  machineId : Option String
  devDeviceId : Option String
deriving DecidableEq, Repr

structure StorageData where
  machineId : Option String
  telemetry : Option TelemetryObj
deriving DecidableEq, Repr

/-- Root-level update block (telemetry_manager.py lines 100-106): assign the
new machineId only when present and different; report whether `modified`
was set. -/
def updateRoot (d : StorageData) (new_mid : String) : StorageData × Bool :=
  match d.machineId with
  | none => (d, false)
  | some v => if v = new_mid then (d, false) else ({ d with machineId := some new_mid }, true)

/-- Nested `telemetry` update block (telemetry_manager.py lines 108-123). -/
def updateTelemetry (d : StorageData) (new_mid new_did : String) : StorageData × Bool :=
  match d.telemetry with
  | none => (d, false)
  | some t =>
    let pm : Option String × Bool :=
      match t.machineId with
      | none => (none, false)
      | some v => if v = new_mid then (some v, false) else (some new_mid, true)
    let pd : Option String × Bool :=
      match t.devDeviceId with
      | none => (none, false)
      | some v => if v = new_did then (some v, false) else (some new_did, true)
    ({ d with telemetry := some ⟨pm.1, pd.1⟩ }, pm.2 || pd.2)

/-- Outcome of one `modify_vscode_telemetry_ids` run: the boolean result, the
final on-disk data, whether the file was written, and whether a
restore-from-backup copy happened. -/
structure TelemetryRun where
  ok : Bool
  data : StorageData
  written : Bool
  restored : Bool
deriving DecidableEq, Repr

/-- `modify_vscode_telemetry_ids(storage_json_path)` (telemetry_manager.py
lines 41-151).  `fileExists` models `storage_json_path.exists()`;
`backupOk` whether `create_backup` succeeds (on failure the function
aborts before reading, lines 81-84); `new_mid`/`new_did` are the values
produced by `generate_new_machine_id`/`generate_new_device_id`; `writeOk`
whether the final `json.dump` write succeeds (on failure the backup — a
copy of the original — is copied back, `restoreOk` permitting). -/
def modify_vscode_telemetry_ids (fileExists backupOk writeOk restoreOk : Bool)
    (d : StorageData) (new_mid new_did : String) : TelemetryRun :=
  if fileExists = false then ⟨false, d, false, false⟩
  else if backupOk = false then ⟨false, d, false, false⟩
  else
    let r1 := updateRoot d new_mid
    let r2 := updateTelemetry r1.1 new_mid new_did
    if (r1.2 || r2.2) = false then ⟨true, d, false, false⟩
    else if writeOk then ⟨true, r2.1, true, false⟩
    else if restoreOk then ⟨false, d, false, true⟩
    else ⟨false, d, false, false⟩

/-! ## File deletion engines

`common_utils.safe_remove_file` (common_utils.py lines 597-629) and
`FileCleaner.safe_delete_file` (file_cleaner.py lines 113-150).  The
outcome of each `file_path.unlink()` call is supplied by the environment. -/

/-- What one `unlink` attempt does: succeeds, raises a locking-class error
(`PermissionError`/`OSError`), or raises some other exception. -/
inductive UnlinkOutcome
  | ok
  | locked
  | fatal
deriving DecidableEq, Repr

/-- The retry loop of `safe_remove_file`: `attempts i` is the outcome of the
`i`-th `unlink` call; `rem` is the number of loop iterations left.  A
locking-class error retries unless this was the last attempt; any other
exception returns `False` immediately. -/
def removeLoop (attempts : Nat → UnlinkOutcome) (i : Nat) : Nat → Bool
  | 0 => false
  | rem + 1 =>
    match attempts i with
    | UnlinkOutcome.ok => true
    | UnlinkOutcome.locked => if rem = 0 then false else removeLoop attempts (i + 1) rem
    | UnlinkOutcome.fatal => false

/-- `safe_remove_file(file_path, max_retries=3)`: a non-existent file is
success immediately. -/
def safe_remove_file (fileExists : Bool) (attempts : Nat → UnlinkOutcome)
    (max_retries : Nat := 3) : Bool :=
  if fileExists = false then true
  else removeLoop attempts 0 max_retries

namespace FileCleaner

/-- Outcome of the first `unlink` in `FileCleaner.safe_delete_file`:
success, a locking-class error (`errno` 13/32), another `OSError`, or a
non-OS exception. -/
inductive DeleteOutcome
  | ok
  | lockedErr
  | otherOsErr
  | otherExc
deriving DecidableEq, Repr

/-- `FileCleaner.safe_delete_file(file_path, force_mode)` (file_cleaner.py
lines 113-150).  A non-existent file returns `False` (no message is
printed on that path).  `forceResult` stands for the outcome of the
escalation chain `_force_delete_file` (lines 152-190: delayed retry,
killing occupying processes, OS-specific forced removal), which is
entirely environment-driven and only reached when the file exists, is
locked, and `force_mode` is on. -/
def safe_delete_file (fileExists : Bool) (firstUnlink : DeleteOutcome)
    (forceResult : Bool) (force_mode : Bool) : Bool :=
  if fileExists = false then false
  else
    match firstUnlink with
    | DeleteOutcome.ok => true
    | DeleteOutcome.lockedErr => if force_mode then forceResult else false
    | DeleteOutcome.otherOsErr => false
    | DeleteOutcome.otherExc => false

end FileCleaner

/-! ## Process manager
(`AugmentCode-Free-Source-Complete/augment_tools_core/process_manager.py`)

Process enumeration is a sequence of snapshots supplied by the OS:
`enum k` is what the `k`-th call to `get_ide_processes` during the run
returns.  Kill commands are issued with `check=False` and their return
codes are discarded by the source, so the kill-outcome oracle
`killResults` is an (ignored) parameter. -/

abbrev ProcList := List String

/-- The tail of `_kill_processes_standard` (process_manager.py lines
218-249): kill commands are issued (results discarded), the code sleeps,
re-enumerates, and returns `len(remaining) == 0`; if an exception escapes
the block it returns `False`. -/
def kill_processes_standard (procs : ProcList) (killResults : List Bool)
    (excOk : Bool) (reenum : ProcList) : Bool :=
  if excOk then reenum.length == 0 else false

/-- The `for retry in range(3)` loop of `_kill_processes_force` plus its
final check (process_manager.py lines 251-282).  `i` counts enumeration
calls; `rem` is the number of loop iterations left.  When the loop is
exhausted, the final enumeration decides: empty means success, otherwise
the still-running list is reported and the result is `False`. -/
def forceLoop (enum : Nat → ProcList) (i : Nat) : Nat → Bool × ProcList
  | 0 => if (enum i).length == 0 then (true, []) else (false, enum i)
  | rem + 1 =>
    if (enum i).length == 0 then (true, [])
    else forceLoop enum (i + 1) rem

/-- `_kill_processes_force(ide_type)` with `max_retries = 3`. -/
def kill_processes_force (enum : Nat → ProcList) (killResults : Nat → Bool) :
    Bool × ProcList :=
  forceLoop enum 0 3

/-! ## Patch manager
(`AugmentCode-Free-Source-Complete/augment_tools_core/patch_manager.py`)

The injection anchor is the regex `(async\s+callApi\s*\([^)]*\)\s*\{)`.
Each quantifier in it is deterministic (greedy matching never needs to
backtrack: `\s` never overlaps the required next literal character and
`[^)]` cannot match `)`), so `re.search` is modelled by scanning for the
leftmost position where the following matcher succeeds.  `\s` is modelled
by its ASCII cases (space, `\t`, `\n`, `\r`, `\v`, `\f`). -/

def isPyWs (c : Char) : Bool :=
  c == ' ' || c == '\t' || c == '\n' || c == '\r' ||
    c == Char.ofNat 11 || c == Char.ofNat 12

/-- Length of the maximal leading run satisfying `p`, plus the rest. -/
def spanCount (p : Char → Bool) : List Char → Nat × List Char
  | [] => (0, [])
  | c :: cs =>
    if p c then
      let r := spanCount p cs
      (r.1 + 1, r.2)
    else (0, c :: cs)

/-- Strip a literal prefix, returning the remainder on success. -/
def stripPrefixL : List Char → List Char → Option (List Char)
  | [], l => some l
  | _ :: _, [] => none
  | a :: as, b :: bs => if a == b then stripPrefixL as bs else none

namespace PatchManager

/-- Match the anchor regex at the head of `l`; on success return the number
of characters consumed (i.e. the offset of `match.end()` from the match
start). -/
def matchAnchorAt (l : List Char) : Option Nat :=
  match stripPrefixL "async".toList l with
  | none => none
  | some r1 =>
    let w1 := spanCount isPyWs r1
    if w1.1 = 0 then none
    else
      match stripPrefixL "callApi".toList w1.2 with
      | none => none
      | some r2 =>
        let w2 := spanCount isPyWs r2
        match w2.2 with
        | [] => none
        | c :: r3 =>
          if c == '(' then
            let args := spanCount (fun d => !(d == ')')) r3
            match args.2 with
            | [] => none
            | d :: r4 =>
              if d == ')' then
                let w3 := spanCount isPyWs r4
                match w3.2 with
                | [] => none
                | e :: _ =>
                  if e == Char.ofNat 123 then
                    some (5 + w1.1 + 7 + w2.1 + 1 + args.1 + 1 + w3.1 + 1)
                  else none
              else none
          else none

/-- Leftmost-match scan: `re.search` returning `match.end()`.  `i` is the
index of the current position in the whole content. -/
def findAnchorAux (i : Nat) : List Char → Option Nat
  | [] => none
  | c :: rest =>
    match matchAnchorAt (c :: rest) with
    | some len => some (i + len)
    | none => findAnchorAux (i + 1) rest

/-- `_find_callapi_function(content)` (patch_manager.py lines 99-102),
reduced to the end index of the leftmost anchor match (`None` when the
anchor is absent). -/
def findAnchorEnd (content : List Char) : Option Nat := findAnchorAux 0 content

/-- Number of positions in `content` where the anchor regex matches. -/
def anchorCount : List Char → Nat
  | [] => 0
  | c :: rest =>
    (if (matchAnchorAt (c :: rest)).isSome then 1 else 0) + anchorCount rest

/-- `PatchMode` (patch_manager.py lines 18-24). -/
inductive PatchMode
  | block
  | random
  | empty
  | stealth
  | debug
deriving DecidableEq, Repr

/-- The `self.patches` templates (patch_manager.py lines 41-51), verbatim
(`\x7b`/`\x7d` are `{`/`}`). -/
def patches : PatchMode → String
  | PatchMode.block =>
    "if (typeof s === \"string\" && (s.startsWith(\"report-\") || s.startsWith(\"record-\"))) \x7b return \x7b success: true \x7d; \x7d"
  | PatchMode.random =>
    "if (typeof s === \"string\" && (s.startsWith(\"report-\") || s.startsWith(\"record-\"))) \x7b i = \x7b timestamp: Date.now(), version: Math.random().toString(36).substring(2, 8) \x7d; \x7d"
  | PatchMode.empty =>
    "if (typeof s === \"string\" && (s.startsWith(\"report-\") || s.startsWith(\"record-\"))) \x7b i = \x7b\x7d; \x7d"
  | PatchMode.stealth =>
    "if (typeof s === \"string\" && (s.startsWith(\"report-\") || s.startsWith(\"record-\"))) \x7b i = \x7b timestamp: Date.now(), session: Math.random().toString(36).substring(2, 10), events: [] \x7d; \x7d"
  | PatchMode.debug =>
    "if (typeof s === \"string\" && (s.startsWith(\"report-\") || s.startsWith(\"record-\"))) \x7b i = \x7b timestamp: Date.now(), version: Math.random().toString(36).substring(2, 8) \x7d; \x7d if (typeof s === \"string\" && s === \"subscription-info\") \x7b return \x7b success: true, subscription: \x7b Enterprise: \x7b\x7d, ActiveSubscription: \x7b end_date: \"2026-12-31\", usage_balance_depleted: false \x7d \x7d \x7d; \x7d this.maxUploadSizeBytes = 999999999; this.maxTrackableFileCount = 999999; this.completionTimeoutMs = 999999; this.diffBudget = 999999; this.messageBudget = 999999; this.enableDebugFeatures = true;"

/-- `_generate_session_randomizer()` (patch_manager.py lines 72-74),
verbatim; it is appended to every patch template. -/
def session_randomizer : String :=
  " const chars = \"0123456789abcdef\"; let randSessionId = \"\"; for (let i = 0; i < 36; i++) \x7b randSessionId += i === 8 || i === 13 || i === 18 || i === 23 ? \"-\" : i === 14 ? \"4\" : i === 19 ? chars[8 + Math.floor(4 * Math.random())] : chars[Math.floor(16 * Math.random())]; \x7d this.sessionId = randSessionId; this._userAgent = \"\";"

/-- `self.patch_signatures` (patch_manager.py lines 54-59). -/
def patch_signatures : List String :=
  ["startsWith(\"report-\")", "startsWith(\"record-\")", "randSessionId",
    "this._userAgent = \"\""]

/-- `_is_already_patched(content)` (patch_manager.py lines 95-97):
`any(sig in content for sig in self.patch_signatures)`. -/
def is_already_patched (content : List Char) : Bool :=
  patch_signatures.any (fun sig => containsSub sig.toList content)

/-- `PatchResult` reduced to the fields the claims are about. -/
structure PatchResult where
  success : Bool
  message : String
deriving DecidableEq, Repr

/-- Target file and its `<stem>_ori<ext>` backup sitting next to it. -/
structure PatchFs where
  file : Option (List Char)
  backup : Option (List Char)
deriving DecidableEq, Repr

/-- I/O environment of one `apply_patch` run: whether the initial read, the
backup `shutil.copy2`, the patched write, and the failure-path restore
copy succeed. -/
structure PatchEnv where
  readOk : Bool
  backupCopyOk : Bool
  writeOk : Bool
  restoreCopyOk : Bool
deriving DecidableEq, Repr

/-- `_create_backup(file_path)` (patch_manager.py lines 76-93): when the
backup file already exists it is kept as is and the call still reports
success; otherwise the file is copied (the copy failing or the source
file being missing raises, caught, and reported as failure). -/
def create_backup (fs : PatchFs) (copyOk : Bool) : Bool × PatchFs :=
  match fs.backup with
  | some _ => (true, fs)
  | none =>
    match fs.file, copyOk with
    | some c, true => (true, { fs with backup := some c })
    | _, _ => (false, fs)

/-- The content written by a successful patch: the fixed snippet for the
chosen mode plus the session randomizer, spliced in right after
`match.end()` of the anchor. -/
def patchedContent (content : List Char) (funcStart : Nat) (m : PatchMode) :
    List Char :=
  content.take funcStart ++ ((patches m).toList ++ session_randomizer.toList) ++
    content.drop funcStart

/-- `apply_patch(file_path, patch_mode)` (patch_manager.py lines 104-164). -/
def apply_patch (fs : PatchFs) (m : PatchMode) (env : PatchEnv) :
    PatchResult × PatchFs :=
  match fs.file with
  | none => (⟨false, "文件不存在"⟩, fs)
  | some content =>
    if env.readOk = false then (⟨false, "读取文件失败"⟩, fs)
    else if is_already_patched content then (⟨false, "文件已被补丁，跳过操作"⟩, fs)
    else
      match findAnchorEnd content with
      | none => (⟨false, "未找到async callApi函数"⟩, fs)
      | some funcStart =>
        if (create_backup fs env.backupCopyOk).1 = false then
          (⟨false, "创建备份失败"⟩, (create_backup fs env.backupCopyOk).2)
        else if env.writeOk then
          (⟨true, "补丁应用成功"⟩,
            { (create_backup fs env.backupCopyOk).2 with
                file := some (patchedContent content funcStart m) })
        else if env.restoreCopyOk then
          match (create_backup fs env.backupCopyOk).2.backup with
          | some b =>
            (⟨false, "写入补丁文件失败"⟩,
              { (create_backup fs env.backupCopyOk).2 with file := some b })
          | none => (⟨false, "写入补丁文件失败"⟩, (create_backup fs env.backupCopyOk).2)
        else (⟨false, "写入补丁文件失败"⟩, (create_backup fs env.backupCopyOk).2)

/-- `restore_from_backup(file_path)` (patch_manager.py lines 166-181). -/
def restore_from_backup (fs : PatchFs) (copyOk : Bool) : PatchResult × PatchFs :=
  match fs.backup with
  | none => (⟨false, "备份文件不存在"⟩, fs)
  | some b =>
    if copyOk then (⟨true, "恢复成功"⟩, { fs with file := some b })
    else (⟨false, "恢复失败"⟩, fs)

/-- `get_patch_status(file_path)` (patch_manager.py lines 183-198). -/
def get_patch_status (fs : PatchFs) (readOk : Bool) : String :=
  match fs.file with
  | none => "文件不存在"
  | some content =>
    if readOk = false then "状态未知"
    else if is_already_patched content then "已补丁"
    else "未补丁"

end PatchManager

/-! ## Theorems: database manager claims -/

/-- Removing every row whose key matches leaves no matching row behind. -/
theorem countMatching_removeMatching (kw : String) (s : Store) :
    countMatching kw (removeMatching kw s) = 0 := by
  simp only [countMatching, removeMatching, List.filter_filter]
  simp [List.length_eq_zero, List.filter_eq_nil_iff]

/-- Claim C1: on a store holding exactly the rows `app.foo`, `augment.bar`
and `x.augment.y`, enhanced sanitization with keyword `augment` succeeds,
reports `entries_removed = 2`, and leaves exactly the row `app.foo`. -/
theorem clean_enhanced_scenario (a b c : Nat) :
    (clean_vscode_database_enhanced
        ⟨some [("app.foo", a), ("augment.bar", b), ("x.augment.y", c)], none⟩
        true DbFault.noFault "augment").result.success = true ∧
    (clean_vscode_database_enhanced
        ⟨some [("app.foo", a), ("augment.bar", b), ("x.augment.y", c)], none⟩
        true DbFault.noFault "augment").result.entries_removed = 2 ∧
    (clean_vscode_database_enhanced
        ⟨some [("app.foo", a), ("augment.bar", b), ("x.augment.y", c)], none⟩
        true DbFault.noFault "augment").fs.db = some [("app.foo", a)] :=
  ⟨rfl, rfl, rfl⟩

/-- Claim C7: sanitizing a store twice in a row with the same keyword
removes zero entries on the second pass, and the second pass reports
success. -/
theorem clean_enhanced_idempotent (kw : String) (store : Store)
    (bk : Option Store) (b1 b2 : Bool) :
    (clean_vscode_database_enhanced
        (clean_vscode_database_enhanced ⟨some store, bk⟩ b1 DbFault.noFault kw).fs
        b2 DbFault.noFault kw).result.success = true ∧
    (clean_vscode_database_enhanced
        (clean_vscode_database_enhanced ⟨some store, bk⟩ b1 DbFault.noFault kw).fs
        b2 DbFault.noFault kw).result.entries_removed = 0 := by
  by_cases h0 : countMatching kw store = 0
  · cases b1 <;> cases b2 <;>
      simp [clean_vscode_database_enhanced, h0]
  · cases b1 <;> cases b2 <;>
      simp [clean_vscode_database_enhanced, h0, countMatching_removeMatching]

/-- Claim C2 counterexample: in `clean_vscode_database_enhanced`, a
`sqlite3.Error` during the store operations returns failure without any
restore-from-backup copy, and the store is left as the database engine
left it (here: with one row already deleted), not as it was before the
call. -/
theorem clean_enhanced_no_restore_counterexample :
    (clean_vscode_database_enhanced ⟨some [("augment.a", 1), ("keep.b", 2)], none⟩
        true (DbFault.sqliteErr [("keep.b", 2)]) "augment").result.success = false ∧
    (clean_vscode_database_enhanced ⟨some [("augment.a", 1), ("keep.b", 2)], none⟩
        true (DbFault.sqliteErr [("keep.b", 2)]) "augment").restored = false ∧
    (clean_vscode_database_enhanced ⟨some [("augment.a", 1), ("keep.b", 2)], none⟩
        true (DbFault.sqliteErr [("keep.b", 2)]) "augment").fs.db = some [("keep.b", 2)] ∧
    (clean_vscode_database_enhanced ⟨some [("augment.a", 1), ("keep.b", 2)], none⟩
        true (DbFault.sqliteErr [("keep.b", 2)]) "augment").fs.db ≠
      some [("augment.a", 1), ("keep.b", 2)] := by
  refine ⟨rfl, rfl, rfl, by decide⟩

/-- Claim C2, amended: only `clean_vscode_database` restores from the
backup, and only in its `sqlite3.Error` handler (backup present, restore
copy succeeding); its generic exception handler, and both exception
handlers of `clean_vscode_database_enhanced`, return failure without
restoring. -/
theorem clean_restore_policy (store mid : Store) (bk : Option Store) (kw : String) :
    (clean_vscode_database ⟨some store, bk⟩ true true (DbFault.sqliteErr mid) kw).ok = false ∧
    (clean_vscode_database ⟨some store, bk⟩ true true (DbFault.sqliteErr mid) kw).restored = true ∧
    (clean_vscode_database ⟨some store, bk⟩ true true (DbFault.sqliteErr mid) kw).fs.db = some store ∧
    (clean_vscode_database ⟨some store, bk⟩ true true (DbFault.otherErr mid) kw).restored = false ∧
    (clean_vscode_database ⟨some store, bk⟩ true true (DbFault.otherErr mid) kw).fs.db = some mid ∧
    (clean_vscode_database_enhanced ⟨some store, bk⟩ true (DbFault.sqliteErr mid) kw).restored = false ∧
    (clean_vscode_database_enhanced ⟨some store, bk⟩ true (DbFault.otherErr mid) kw).restored = false :=
  ⟨rfl, rfl, rfl, rfl, rfl, rfl, rfl⟩

/-- Claim C3: `clean_vscode_database_enhanced` violates the
no-mutation-without-backup invariant: when backup creation fails it still
deletes the matching rows and reports success, while the legacy
`clean_vscode_database` aborts with failure and an untouched store. -/
theorem clean_enhanced_mutates_without_backup :
    (clean_vscode_database_enhanced ⟨some [("augment.bar", 2), ("app.foo", 1)], none⟩
        false DbFault.noFault "augment").result.success = true ∧
    (clean_vscode_database_enhanced ⟨some [("augment.bar", 2), ("app.foo", 1)], none⟩
        false DbFault.noFault "augment").result.backup_created = false ∧
    (clean_vscode_database_enhanced ⟨some [("augment.bar", 2), ("app.foo", 1)], none⟩
        false DbFault.noFault "augment").result.entries_removed = 1 ∧
    (clean_vscode_database_enhanced ⟨some [("augment.bar", 2), ("app.foo", 1)], none⟩
        false DbFault.noFault "augment").fs.db = some [("app.foo", 1)] ∧
    (clean_vscode_database_enhanced ⟨some [("augment.bar", 2), ("app.foo", 1)], none⟩
        false DbFault.noFault "augment").fs.backup = none ∧
    (clean_vscode_database ⟨some [("augment.bar", 2), ("app.foo", 1)], none⟩
        false true DbFault.noFault "augment").ok = false ∧
    (clean_vscode_database ⟨some [("augment.bar", 2), ("app.foo", 1)], none⟩
        false true DbFault.noFault "augment").fs.db =
      some [("augment.bar", 2), ("app.foo", 1)] :=
  ⟨rfl, rfl, rfl, rfl, rfl, rfl, rfl⟩

/-! ## Theorems: telemetry, file deletion, process claims -/

/-- Claim C8: identifier regeneration sets the root `machineId` and the
nested `telemetry.machineId` to the same newly generated value and
`telemetry.devDeviceId` to the newly generated device id, comparing old
against new; the file is written exactly when some field actually
changed, and the run succeeds either way. -/
theorem telemetry_ids_regenerated (rm tmid tdd new_mid new_did : String) :
    (modify_vscode_telemetry_ids true true true true
        ⟨some rm, some ⟨some tmid, some tdd⟩⟩ new_mid new_did).ok = true ∧
    (modify_vscode_telemetry_ids true true true true
        ⟨some rm, some ⟨some tmid, some tdd⟩⟩ new_mid new_did).data.machineId = some new_mid ∧
    (modify_vscode_telemetry_ids true true true true
        ⟨some rm, some ⟨some tmid, some tdd⟩⟩ new_mid new_did).data.telemetry =
      some ⟨some new_mid, some new_did⟩ ∧
    ((modify_vscode_telemetry_ids true true true true
        ⟨some rm, some ⟨some tmid, some tdd⟩⟩ new_mid new_did).written = false ↔
      (rm = new_mid ∧ tmid = new_mid ∧ tdd = new_did)) := by
  by_cases h1 : rm = new_mid <;> by_cases h2 : tmid = new_mid <;>
    by_cases h3 : tdd = new_did <;>
      simp [modify_vscode_telemetry_ids, updateRoot, updateTelemetry, h1, h2, h3]

/-- Claim C6 counterexample: `FileCleaner.safe_delete_file` on a
non-existent file returns `False`, not success. -/
theorem safe_delete_file_nonexistent_counterexample :
    FileCleaner.safe_delete_file false FileCleaner.DeleteOutcome.ok true true = false :=
  rfl

/-- Claim C6, amended: a delete attempt on a non-existent path returns
success from `common_utils.safe_remove_file` (whatever the retry budget
and unlink outcomes would have been), while `FileCleaner.safe_delete_file`
returns `False` for a non-existent path — it does not attempt deletion or
report an error, that path merely counts as "not deleted". -/
theorem delete_nonexistent_policy (attempts : Nat → UnlinkOutcome) (n : Nat)
    (o : FileCleaner.DeleteOutcome) (forceResult force_mode : Bool) :
    safe_remove_file false attempts n = true ∧
    FileCleaner.safe_delete_file false o forceResult force_mode = false :=
  ⟨rfl, rfl⟩

/-- One unrolling of `_kill_processes_force`'s `range(3)` loop plus its
final check. -/
theorem forceLoop_unroll (enum : Nat → ProcList) :
    forceLoop enum 0 3 =
      if (enum 0).length == 0 then (true, [])
      else if (enum 1).length == 0 then (true, [])
      else if (enum 2).length == 0 then (true, [])
      else if (enum 3).length == 0 then (true, [])
      else (false, enum 3) :=
  rfl

/-- Claim C9: termination success is decided solely by fresh process
enumeration: the standard path succeeds iff the post-kill enumeration is
empty; the forced path succeeds iff one of the at most four enumerations
it performs (one per retry of the 3-attempt loop, plus the final check)
is empty, is invariant under the discarded kill-command results, and on
exhaustion reports the still-running process list of the final check. -/
theorem termination_success_iff_enumeration_empty (procs : ProcList)
    (kills kills2 : List Bool) (reenum : ProcList) (enum : Nat → ProcList)
    (kr kr2 : Nat → Bool) :
    (kill_processes_standard procs kills true reenum = true ↔ reenum = []) ∧
    kill_processes_standard procs kills true reenum =
      kill_processes_standard procs kills2 true reenum ∧
    ((kill_processes_force enum kr).1 = true ↔
      (enum 0 = [] ∨ enum 1 = [] ∨ enum 2 = [] ∨ enum 3 = [])) ∧
    kill_processes_force enum kr = kill_processes_force enum kr2 ∧
    (kill_processes_force enum kr).2 =
      (if (kill_processes_force enum kr).1 then [] else enum 3) := by
  refine ⟨?_, rfl, ?_, rfl, ?_⟩
  · simp [kill_processes_standard, List.length_eq_zero]
  · by_cases h0 : enum 0 = [] <;> by_cases h1 : enum 1 = [] <;>
      by_cases h2 : enum 2 = [] <;> by_cases h3 : enum 3 = [] <;>
        simp [kill_processes_force, forceLoop_unroll, h0, h1, h2, h3,
          List.length_eq_zero]
  · by_cases h0 : enum 0 = [] <;> by_cases h1 : enum 1 = [] <;>
      by_cases h2 : enum 2 = [] <;> by_cases h3 : enum 3 = [] <;>
        simp [kill_processes_force, forceLoop_unroll, h0, h1, h2, h3,
          List.length_eq_zero]

/-! ## Theorems: patch manager claims -/

namespace PatchManager

/-- The session randomizer carries the `randSessionId` signature marker. -/
theorem containsSub_randomizer :
    containsSub ("randSessionId".toList) session_randomizer.toList = true := by
  decide

/-- Any content produced by a successful patch is detected as patched by
the signature scan, whatever the mode: every injected snippet ends with
the session randomizer. -/
theorem is_already_patched_patchedContent (content : List Char) (k : Nat)
    (m : PatchMode) : is_already_patched (patchedContent content k m) = true := by
  have h2 := containsSub_append_left (patches m).toList containsSub_randomizer
  have h3 := containsSub_append_right (content.drop k) h2
  have h4 := containsSub_append_left (content.take k) h3
  have e : patchedContent content k m =
      content.take k ++
        (((patches m).toList ++ session_randomizer.toList) ++ content.drop k) := by
    simp [patchedContent, List.append_assoc]
  rw [e]
  simp only [is_already_patched, patch_signatures, List.any_eq_true]
  exact ⟨"randSessionId", by simp, h4⟩

/-- Characterization of a successful `apply_patch` run: the file existed,
was readable and unpatched, the anchor was found, and the final file
content is the spliced patch. -/
theorem apply_patch_success_spec (fs : PatchFs) (m : PatchMode) (env : PatchEnv)
    (h : (apply_patch fs m env).1.success = true) :
    ∃ content funcStart,
      fs.file = some content ∧
      is_already_patched content = false ∧
      findAnchorEnd content = some funcStart ∧
      (apply_patch fs m env).2.file = some (patchedContent content funcStart m) := by
  cases hf : fs.file with
  | none => simp [apply_patch, hf] at h
  | some content =>
    cases hr : env.readOk with
    | false => simp [apply_patch, hf, hr] at h
    | true =>
      cases hp : is_already_patched content with
      | true => simp [apply_patch, hf, hr, hp] at h
      | false =>
        cases ha : findAnchorEnd content with
        | none => simp [apply_patch, hf, hr, hp, ha] at h
        | some k =>
          cases hb : (create_backup fs env.backupCopyOk).1 with
          | false => simp [apply_patch, hf, hr, hp, ha, hb] at h
          | true =>
            cases hw : env.writeOk with
            | true =>
              exact ⟨content, k, rfl, hp, ha,
                by simp [apply_patch, hf, hr, hp, ha, hb, hw]⟩
            | false =>
              cases hrc : env.restoreCopyOk with
              | true =>
                cases hbk : (create_backup fs env.backupCopyOk).2.backup <;>
                  simp [apply_patch, hf, hr, hp, ha, hb, hw, hrc, hbk] at h
              | false => simp [apply_patch, hf, hr, hp, ha, hb, hw, hrc] at h

/-- Claim C4: after a successful `apply_patch`, an immediately repeated
`apply_patch` on the same file (with the read succeeding) fails with the
"already patched" message and leaves the file system, in particular the
file content, unchanged. -/
theorem apply_patch_already_patched_second_run (fs : PatchFs) (m : PatchMode)
    (env env2 : PatchEnv) (h : (apply_patch fs m env).1.success = true)
    (h2 : env2.readOk = true) :
    (apply_patch (apply_patch fs m env).2 m env2).1.success = false ∧
    (apply_patch (apply_patch fs m env).2 m env2).1.message = "文件已被补丁，跳过操作" ∧
    (apply_patch (apply_patch fs m env).2 m env2).2 = (apply_patch fs m env).2 := by
  obtain ⟨content, k, hf, hp, ha, hfile⟩ := apply_patch_success_spec fs m env h
  have hpat := is_already_patched_patchedContent content k m
  generalize hG : (apply_patch fs m env).2 = fs1 at hfile ⊢
  refine ⟨?_, ?_, ?_⟩ <;> simp [apply_patch, hfile, h2, hpat]

/-- Concrete unpatched content holding exactly one anchor occurrence. -/
def wContent : List Char := "async callApi(e) \x7b".toList

/-- All-succeeding I/O environment. -/
def wEnv : PatchEnv := ⟨true, true, true, true⟩

/-- Concrete target file with no pre-existing backup. -/
def wFs : PatchFs := ⟨some wContent, none⟩

theorem apply_patch_already_patched_second_run_witness :
    (apply_patch wFs PatchMode.block wEnv).1.success = true ∧
    ((apply_patch (apply_patch wFs PatchMode.block wEnv).2 PatchMode.block wEnv).1.success = false ∧
     (apply_patch (apply_patch wFs PatchMode.block wEnv).2 PatchMode.block wEnv).1.message =
       "文件已被补丁，跳过操作" ∧
     (apply_patch (apply_patch wFs PatchMode.block wEnv).2 PatchMode.block wEnv).2 =
       (apply_patch wFs PatchMode.block wEnv).2) :=
  ⟨by decide,
    apply_patch_already_patched_second_run wFs PatchMode.block wEnv wEnv (by decide) rfl⟩

/-- Content with no anchor match anywhere is never found by the scan. -/
theorem findAnchorAux_eq_none (i : Nat) (l : List Char) (h : anchorCount l = 0) :
    findAnchorAux i l = none := by
  induction l generalizing i with
  | nil => rfl
  | cons c rest ih =>
    rw [anchorCount] at h
    cases hm : matchAnchorAt (c :: rest) with
    | some len => simp [hm] at h
    | none =>
      simp only [hm, Option.isSome_none, Bool.false_eq_true, if_false,
        Nat.zero_add] at h
      simp only [findAnchorAux, hm]
      exact ih (i + 1) h

/-- Claim C5, amended: on an existing, readable, unpatched file whose
content has zero anchor occurrences, `apply_patch` fails with the
anchor-not-found message and leaves the file system untouched (no backup
is created).  (With one *or more* occurrences the code patches after the
first match — duplication does not cause failure.) -/
theorem apply_patch_anchor_missing (fs : PatchFs) (m : PatchMode) (env : PatchEnv)
    (content : List Char) (hf : fs.file = some content) (hr : env.readOk = true)
    (hp : is_already_patched content = false) (hc : anchorCount content = 0) :
    (apply_patch fs m env).1.success = false ∧
    (apply_patch fs m env).1.message = "未找到async callApi函数" ∧
    (apply_patch fs m env).2 = fs := by
  have ha : findAnchorEnd content = none := findAnchorAux_eq_none 0 content hc
  refine ⟨?_, ?_, ?_⟩ <;> simp [apply_patch, hf, hr, hp, ha]

theorem apply_patch_anchor_missing_witness :
    (⟨some ("hello".toList), none⟩ : PatchFs).file = some ("hello".toList) ∧
    wEnv.readOk = true ∧
    is_already_patched ("hello".toList) = false ∧
    anchorCount ("hello".toList) = 0 ∧
    ((apply_patch ⟨some ("hello".toList), none⟩ PatchMode.block wEnv).1.success = false ∧
     (apply_patch ⟨some ("hello".toList), none⟩ PatchMode.block wEnv).1.message =
       "未找到async callApi函数" ∧
     (apply_patch ⟨some ("hello".toList), none⟩ PatchMode.block wEnv).2 =
       ⟨some ("hello".toList), none⟩) :=
  ⟨rfl, rfl, by decide, by decide,
    apply_patch_anchor_missing ⟨some ("hello".toList), none⟩ PatchMode.block wEnv
      ("hello".toList) rfl rfl (by decide) (by decide)⟩

/-- Unpatched content holding two anchor occurrences. -/
def dupContent : List Char := "async callApi(a)\x7basync  callApi (b) \x7b".toList

/-- Claim C5 counterexample: with the anchor occurring twice (not exactly
once), `apply_patch` does *not* fail: it succeeds, creates a backup, and
rewrites the file (patching after the first occurrence). -/
theorem apply_patch_duplicate_anchor_counterexample :
    anchorCount dupContent = 2 ∧
    is_already_patched dupContent = false ∧
    (apply_patch ⟨some dupContent, none⟩ PatchMode.block wEnv).1.success = true ∧
    (apply_patch ⟨some dupContent, none⟩ PatchMode.block wEnv).2.backup = some dupContent ∧
    (apply_patch ⟨some dupContent, none⟩ PatchMode.block wEnv).2.file ≠ some dupContent :=
  ⟨by decide, by decide, by decide, by decide, by decide⟩

/-- Claim C10: once a `<stem>_ori<ext>` backup exists, `_create_backup`
reports success while keeping the existing backup content, a later
`apply_patch` never overwrites it, and `restore_from_backup` therefore
restores the content preserved at the first backup. -/
theorem backup_preserved (fs : PatchFs) (b : List Char) (m : PatchMode)
    (env : PatchEnv) (h : fs.backup = some b) :
    create_backup fs env.backupCopyOk = (true, fs) ∧
    (apply_patch fs m env).2.backup = some b ∧
    (restore_from_backup (apply_patch fs m env).2 true).1.success = true ∧
    (restore_from_backup (apply_patch fs m env).2 true).2.file = some b := by
  have hcb : ∀ c, create_backup fs c = (true, fs) := fun c => by
    simp [create_backup, h]
  have hb : (apply_patch fs m env).2.backup = some b := by
    cases hf : fs.file with
    | none => simpa [apply_patch, hf] using h
    | some content =>
      cases hr : env.readOk with
      | false => simpa [apply_patch, hf, hr] using h
      | true =>
        cases hp : is_already_patched content with
        | true => simpa [apply_patch, hf, hr, hp] using h
        | false =>
          cases ha : findAnchorEnd content with
          | none => simpa [apply_patch, hf, hr, hp, ha] using h
          | some k =>
            cases hw : env.writeOk with
            | true => simp [apply_patch, hf, hr, hp, ha, hw, hcb, h]
            | false =>
              cases hrc : env.restoreCopyOk with
              | true => simp [apply_patch, hf, hr, hp, ha, hw, hrc, hcb, h]
              | false => simp [apply_patch, hf, hr, hp, ha, hw, hrc, hcb, h]
  exact ⟨hcb _, hb, by simp [restore_from_backup, hb], by simp [restore_from_backup, hb]⟩

/-- Concrete target file that already has a backup with distinct content. -/
def wFsB : PatchFs := ⟨some wContent, some ("original".toList)⟩

theorem backup_preserved_witness :
    wFsB.backup = some ("original".toList) ∧
    (create_backup wFsB wEnv.backupCopyOk = (true, wFsB) ∧
     (apply_patch wFsB PatchMode.block wEnv).2.backup = some ("original".toList) ∧
     (restore_from_backup (apply_patch wFsB PatchMode.block wEnv).2 true).1.success = true ∧
     (restore_from_backup (apply_patch wFsB PatchMode.block wEnv).2 true).2.file =
       some ("original".toList)) :=
  ⟨rfl, backup_preserved wFsB ("original".toList) PatchMode.block wEnv rfl⟩

end PatchManager

end AugmentFree
